import Mathlib

/-!  Verification of the GMSH meshing driver (`FemGmshTools.py`).

This file gives a shallow embedding of the parameter resolution, region /
boundary-layer extraction and geo-script emission performed by the class
`FemGmshTools`, and proves the testable properties stated for it.  Python
floats are embedded as exact rationals (`ℚ`), Python strings as `String`,
Python dicts built by guarded insertion as association lists, and each
`geo.write` call as one element of a list of script statements.  -/

/-- Configuration snapshot of the mesh document object: exactly the fields of
`self.mesh_obj` that `FemGmshTools` reads.  Note there is no 3D-algorithm
field: the source reads `Algorithm2D` for both algorithm resolutions. -/
structure MeshObj where
  CharacteristicLengthMax : ℚ
  CharacteristicLengthMin : ℚ
  GeometryTolerance : ℚ
  ElementOrder : String
  ElementDimension : String
  Algorithm2D : String
  OutputFormat : String
  RecombineAll : Bool
  OptimizeStd : Bool
  OptimizeNetgen : Bool
  HighOrderOptimize : Bool
  CoherenceMesh : Bool
deriving DecidableEq, Repr

/-- Element-order resolution from `__init__` (lines 71-77): '1st' → '1',
'2nd' → '2'; any other string prints 'Error in order' and leaves
`self.order` holding the raw, unconverted string.  The Bool records whether
the error diagnostic was printed. -/
def resolveOrder (o : String) : String × Bool :=
  if o = "1st" then ("1", false)
  else if o = "2nd" then ("2", false)
  else (o, true)

/-- Algorithm2D resolution from `__init__` (lines 84-98).  The final `else`
falls back to code '2' (the 'Automatic' code) without printing anything. -/
def resolveAlgorithm2D (a : String) : String × Bool :=
  if a = "Automatic" then ("2", false)
  else if a = "MeshAdapt" then ("1", false)
  else if a = "Delaunay" then ("5", false)
  else if a = "Frontal" then ("6", false)
  else if a = "BAMG" then ("7", false)
  else if a = "DelQuad" then ("8", false)
  else ("2", false)

/-- Algorithm3D resolution from `__init__` (lines 100-120).  The source sets
`algo3D = self.mesh_obj.Algorithm2D`, so this function is applied to the
`Algorithm2D` field.  The final `else` falls back to code '1' (the
'Automatic' code) without printing anything. -/
def resolveAlgorithm3D (a : String) : String × Bool :=
  if a = "Automatic" then ("1", false)
  else if a = "Delaunay" then ("1", false)
  else if a = "New Delaunay" then ("2", false)
  else if a = "Frontal" then ("4", false)
  else if a = "Frontal Delaunay" then ("5", false)
  else if a = "Frontal Hex" then ("6", false)
  else if a = "MMG3D" then ("7", false)
  else if a = "R-tree" then ("9", false)
  else ("1", false)

/-- Resolved scalar / enum state of a `FemGmshTools` instance after
`__init__` (lines 44-120). -/
structure GmshTools where
  clmax : ℚ
  clmin : ℚ
  geotol : ℚ
  order : String
  dimension : String
  algorithm2D : String
  algorithm3D : String
deriving DecidableEq, Repr

/-- The `__init__` resolution (lines 56-120): zero sentinels for clmax and
geotol are replaced (0 → 1e+22, 0 → 1e-08), order and both algorithm codes
are resolved, and the 3D algorithm is resolved from the `Algorithm2D`
field (line 102 of the source reads `self.mesh_obj.Algorithm2D`). -/
def initTools (m : MeshObj) : GmshTools :=
  { clmax := if m.CharacteristicLengthMax = 0 then 10 ^ 22 else m.CharacteristicLengthMax
    clmin := m.CharacteristicLengthMin
    geotol := if m.GeometryTolerance = 0 then 1 / 10 ^ 8 else m.GeometryTolerance
    order := (resolveOrder m.ElementOrder).1
    dimension := m.ElementDimension
    algorithm2D := (resolveAlgorithm2D m.Algorithm2D).1
    algorithm3D := (resolveAlgorithm3D m.Algorithm2D).1 }

/-- Dimension resolution, `get_dimension` (lines 169-204), as a function of
the configured dimension string and the shape type of the part to mesh.
Returns the new value of `self.dimension` and whether an error diagnostic
was printed ('You can not mesh a Vertex' / 'Could not retrive Dimension' /
'Error in dimension').  The source only prints on error and then falls
through: it never raises and never stops the caller. -/
def getDimension (dimension : String) (shapeType : String) : String × Bool :=
  if dimension = "From Shape" then
    if shapeType = "Solid" ∨ shapeType = "CompSolid" then ("3", false)
    else if shapeType = "Face" ∨ shapeType = "Shell" then ("2", false)
    else if shapeType = "Edge" ∨ shapeType = "Wire" then ("1", false)
    else if shapeType = "Vertex" then ("0", true)
    else if shapeType = "Compound" then ("3", false)
    else ("0", true)
  else if dimension = "3D" then ("3", false)
  else if dimension = "2D" then ("2", false)
  else if dimension = "1D" then ("1", false)
  else (dimension, true)

/-- Diagnostic printed at line 305 for a region element already claimed. -/
def dupRegionDiag (e : String) : String :=
  "The element " ++ e ++ " has been added to another mesh region."

/-- One element claim of `get_region_data` (lines 302-305): the Python test
`elems not in self.ele_length_map` is key membership in the dict, modelled
as an association list.  A second claim of a key leaves the map unchanged
and records the diagnostic; a fresh key is appended with its length. -/
def addRegionClaim (st : List (String × ℚ) × List String) (e : String) (l : ℚ) :
    List (String × ℚ) × List String :=
  if e ∈ st.1.map Prod.fst then (st.1, st.2 ++ [dupRegionDiag e])
  else (st.1 ++ [(e, l)], st.2)

/-- A mesh-region document object as `get_region_data` consumes it: the
characteristic length and the element references, already resolved against
the shape to mesh (the `isSame` / `find_element_in_shape` relocation of
lines 286-301 is a collaborator interface; `References` holds the final
`elems` values that reach line 302). -/
structure MeshRegion where
  CharacteristicLength : ℚ
  References : List String
deriving DecidableEq, Repr

/-- Processing of one region object inside `get_region_data`
(lines 277-309): a region with a zero characteristic length or an empty
reference list is skipped with a diagnostic; otherwise every element
reference is claimed in configuration order. -/
def regionStep (st : List (String × ℚ) × List String) (mr : MeshRegion) :
    List (String × ℚ) × List String :=
  if mr.CharacteristicLength ≠ 0 then
    if mr.References ≠ [] then
      mr.References.foldl (fun s e => addRegionClaim s e mr.CharacteristicLength) st
    else (st.1, st.2 ++ ["meshregion reference list is empty"])
  else (st.1, st.2 ++ ["meshregion CharacteristicLength is 0.0 mm"])

/-- The dict- and diagnostic-building loop of `get_region_data` over the
configured region list. -/
def getRegionData (regions : List MeshRegion) : List (String × ℚ) × List String :=
  regions.foldl regionStep ([], [])

/-- Boundary-layer thickness, line 364 of the source:
`sum([hwall_n * ratio**i for i in range(NumberOfLayers)])`. -/
def blThickness (h r : ℚ) (n : ℕ) : ℚ :=
  ((List.range n).map fun i => h * r ^ i).sum

/-- The hfar selection of lines 368-371: clmax when
`clmax > thickness * 0.8 and clmax < thickness * 1.6`, else thickness. -/
def blHfar (clmax thickness : ℚ) : ℚ :=
  if thickness * (8 / 10) < clmax ∧ clmax < thickness * (16 / 10) then clmax
  else thickness

/-- One boundary-layer `setting` dict (lines 361-380), with the derived
fields in their insertion order.  `elist` holds the `EdgesList` /
`FacesList` entry: its key depends on the resolved dimension, and for a
dimension other than '2' or '3' no such key is inserted (line 379 only
prints an error; the setting is still appended). -/
structure BLSetting where
  hwall_n : ℚ
  ratio : ℚ
  thickness : ℚ
  hwall_t : ℚ
  hfar : ℚ
  elist : Option (String × List String)
deriving DecidableEq, Repr

/-- Construction of one `setting` dict from lines 361-380. -/
def mkSetting (h r : ℚ) (n : ℕ) (clmax : ℚ) (dimension : String)
    (belem_list : List String) : BLSetting :=
  let t := blThickness h r n
  { hwall_n := h
    ratio := r
    thickness := t
    hwall_t := t
    hfar := blHfar clmax t
    elist :=
      if dimension = "2" then some ("EdgesList", belem_list)
      else if dimension = "3" then some ("FacesList", belem_list)
      else none }

/-- Diagnostic printed at line 360 for a boundary element already claimed. -/
def dupBLDiag (e : String) : String :=
  "The element " ++ e ++ " has been added to another mesh boundary layer."

/-- One element claim of `get_boundary_layer_data` (lines 355-360).  The
state is `(belem_list, bl_boundary_list, diagnostics)`: a fresh element is
appended to both lists, an element already present in the global
`bl_boundary_list` is dropped with a diagnostic. -/
def addBLClaim (st : List String × List String × List String) (e : String) :
    List String × List String × List String :=
  if e ∈ st.2.1 then (st.1, st.2.1, st.2.2 ++ [dupBLDiag e])
  else (st.1 ++ [e], st.2.1 ++ [e], st.2.2)

/-- A mesh-boundary-layer document object as `get_boundary_layer_data`
consumes it, with `References` holding the element names that reach the
claim test at line 355 (relocation against the shape to mesh is a
collaborator interface, as for regions). -/
structure MeshBoundaryLayer where
  MinimumThickness : ℚ
  GrowthRate : ℚ
  NumberOfLayers : ℕ
  References : List String
deriving DecidableEq, Repr

/-- State built by `get_boundary_layer_data`: `bl_setting_list`,
`bl_boundary_list` and the diagnostics printed so far. -/
structure BLState where
  settings : List BLSetting
  boundary : List String
  diags : List String
deriving DecidableEq, Repr

/-- Processing of one boundary-layer object (lines 332-384): objects with a
non-positive minimum thickness or an empty reference list are skipped with a
diagnostic; otherwise the references are claimed into a fresh `belem_list`
against the global `bl_boundary_list`, and the derived setting is appended. -/
def processBLObj (clmax : ℚ) (dimension : String) (st : BLState)
    (mr : MeshBoundaryLayer) : BLState :=
  if 0 < mr.MinimumThickness then
    if mr.References ≠ [] then
      let res := mr.References.foldl addBLClaim ([], st.boundary, st.diags)
      { settings := st.settings ++
          [mkSetting mr.MinimumThickness mr.GrowthRate mr.NumberOfLayers clmax
            dimension res.1]
        boundary := res.2.1
        diags := res.2.2 }
    else { st with diags := st.diags ++ ["boundary layer reference list is empty"] }
  else { st with diags := st.diags ++ ["boundary layer min thickness is 0.0 mm"] }

/-- The whole of `get_boundary_layer_data` (lines 317-385) over the
configured list of boundary-layer objects. -/
def getBoundaryLayerData (clmax : ℚ) (dimension : String)
    (objs : List MeshBoundaryLayer) : BLState :=
  objs.foldl (processBLObj clmax dimension) ⟨[], [], []⟩

/-- The element references stored in a setting's `EdgesList` / `FacesList`
entry ([] when the setting has no such entry). -/
def blElems (s : BLSetting) : List String :=
  (s.elist.map Prod.snd).getD []

/-- One emitted geo-script statement: each `geo.write` call of `write_geo`,
`write_group` and `write_boundary_layer` becomes one statement.  A physical
declaration `Physical <ptype>("<gname>") = {<elems>};` is kept structured;
comments and the remaining directives stay as their raw text. -/
inductive GeoStmt where
  | comment (s : String)
  | physical (ptype gname elems : String)
  | raw (s : String)
deriving DecidableEq, Repr

/-- Python `str.startswith(p)`: the string's characters begin with the
characters of `p`. -/
def pyStartsWith (s p : String) : Bool := p.data.isPrefixOf s.data

/-- Python `str.lstrip(chars)`: drop leading characters that belong to the
character set `chars` (so `'Solid1'.lstrip('Solid') = '1'`). -/
def pyLstrip (chars : String) (s : String) : String :=
  ⟨s.data.dropWhile (fun c => c ∈ chars.data)⟩

/-- Python `str.rstrip(chars)`: drop trailing characters of the set. -/
def pyRstrip (chars : String) (s : String) : String :=
  ⟨(s.data.reverse.dropWhile (fun c => c ∈ chars.data)).reverse⟩

/-- The `''.join(x + ', ' for x in xs).rstrip(', ')` idiom of lines 401,
459-484 and 532. -/
def joinComma (xs : List String) : String :=
  pyRstrip ", " (String.join (xs.map (· ++ ", ")))

/-- One group of `self.group_elements`: its name and its element-reference
list (`gdata`). -/
abbrev MeshGroup := String × List String

/-- Body of the per-group loop of `write_group` (lines 456-486), threading
`(written statements, boundaries, domains)`.  Dispatch is on the text of the
first element reference (`gdata[0].startswith(...)`); the physical
declaration is written only when `ele_nr` is non-empty, exactly as the
`if ele_nr:` test of line 483.  A group whose `gdata` is empty would raise
`IndexError` in Python; here it dispatches on the empty string and matches
no branch, and the theorems about this function assume non-empty `gdata`. -/
def writeGroupOne (dimension : String) (st : List GeoStmt × ℕ × ℕ)
    (g : MeshGroup) : List GeoStmt × ℕ × ℕ :=
  let h0 := g.2.headD ""
  if pyStartsWith h0 "Solid" then
    let ele_nr := joinComma (g.2.map (pyLstrip "Solid"))
    (st.1 ++ (if ele_nr ≠ "" then [GeoStmt.physical "Volume" g.1 ele_nr] else []),
      st.2.1, if dimension = "3" then st.2.2 + 1 else st.2.2)
  else if pyStartsWith h0 "Face" then
    let ele_nr := joinComma (g.2.map (pyLstrip "Face"))
    (st.1 ++ (if ele_nr ≠ "" then [GeoStmt.physical "Surface" g.1 ele_nr] else []),
      if dimension = "3" then st.2.1 + 1 else st.2.1,
      if dimension = "2" then st.2.2 + 1 else st.2.2)
  else if pyStartsWith h0 "Edge" then
    let ele_nr := joinComma (g.2.map (pyLstrip "Edge"))
    (st.1 ++ (if ele_nr ≠ "" then [GeoStmt.physical "Line" g.1 ele_nr] else []),
      if dimension = "2" then st.2.1 + 1 else st.2.1, st.2.2)
  else if pyStartsWith h0 "Vertex" then
    (st.1 ++ [GeoStmt.comment
        (g.1 ++ " group data not written. Vertexes group data not supported.")],
      st.2.1, st.2.2)
  else (st.1, st.2.1, st.2.2)

/-- The fold of `write_group` over all groups, started from the optional
'group data' comment of line 454 and zero counters. -/
def groupFold (dimension : String) (groups : List MeshGroup) :
    List GeoStmt × ℕ × ℕ :=
  groups.foldl (writeGroupOne dimension)
    (if groups ≠ [] then [GeoStmt.comment "group data"] else [], 0, 0)

/-- The synthetic default-domain block of lines 488-493: with zero domains,
dimension '3' yields `Physical Volume("Interior") = {1};` and dimension '2'
yields `Physical Surface("Interior") = {1};` (any other dimension yields
nothing); with at least one domain nothing is written. -/
def interiorStmts (dimension : String) (domains : ℕ) : List GeoStmt :=
  if domains = 0 then
    (if dimension = "3" then [GeoStmt.physical "Volume" "Interior" "1"] else []) ++
    (if dimension = "2" then [GeoStmt.physical "Surface" "Interior" "1"] else [])
  else []

/-- The UNV group-saving tail of `write_group` (lines 500-509), written only
with an analysis present and the 'I-Deas universal' output format. -/
def saveGroupsStmts (analysis : Bool) (outputFormat : String) : List GeoStmt :=
  if analysis ∧ outputFormat = "I-Deas universal" then
    [GeoStmt.comment "For each group save not only the elements but the nodes too.;",
     GeoStmt.raw "Mesh.SaveGroupsOfNodes = 1;",
     GeoStmt.comment "Needed for Group meshing too, because for one material there is no group defined;",
     GeoStmt.comment "Ignore Physical definitions and save all elements, if Mesh.SaveAll = 1;",
     GeoStmt.raw "Mesh.SaveAll = 1;"]
  else []

/-- The whole of `write_group` (lines 449-509). -/
def writeGroup (dimension : String) (analysis : Bool) (outputFormat : String)
    (groups : List MeshGroup) : List GeoStmt :=
  let st := groupFold dimension groups
  st.1 ++ interiorStmts dimension st.2.2 ++ saveGroupsStmts analysis outputFormat

/-- One `Field[n]` block of `write_boundary_layer` (lines 393-410): the
setting's entries in dict-insertion order, the reference list rendered with
`str(el[4:])` (drop the four characters of the 'Face' / 'Edge' kind), then
the activation statement and the closing comment. -/
def writeBoundaryLayerField (idx : ℕ) (s : BLSetting) : List GeoStmt :=
  let p := "Field[" ++ toString idx ++ "]"
  [GeoStmt.raw (p ++ " = BoundaryLayer;"),
   GeoStmt.raw (p ++ ".hwall_n = " ++ toString s.hwall_n ++ ";"),
   GeoStmt.raw (p ++ ".ratio = " ++ toString s.ratio ++ ";"),
   GeoStmt.raw (p ++ ".thickness = " ++ toString s.thickness ++ ";"),
   GeoStmt.raw (p ++ ".hwall_t = " ++ toString s.hwall_t ++ ";"),
   GeoStmt.raw (p ++ ".hfar = " ++ toString s.hfar ++ ";")] ++
  (match s.elist with
   | some (k, els) =>
       [GeoStmt.raw (p ++ "." ++ k ++ " = \x7b" ++
         joinComma (els.map (fun el => el.drop 4)) ++ " \x7d;")]
   | none => []) ++
  [GeoStmt.raw ("BoundaryLayer Field = " ++ toString idx ++ ";"),
   GeoStmt.comment "end of this boundary layer setup"]

/-- The whole of `write_boundary_layer` (lines 387-416), numbering fields
from 1 in list order. -/
def writeBoundaryLayer (bl : BLState) : List GeoStmt :=
  if bl.settings.length ≠ 0 then
    GeoStmt.comment "boundary layer setting" ::
      (bl.settings.enum.map fun p => writeBoundaryLayerField (p.1 + 1) p.2).flatten
  else [GeoStmt.comment "no boundary layer settings for this mesh"]

/-- Python `==` between a `str` and an `int`: values of different types are
never equal, so the comparison is False for every string.  This models the
guard `self.dimension == 3` at line 579, where `self.dimension` always
holds a string such as `'3'`. -/
def pyEqStrInt (_s : String) (_n : Int) : Bool := false

/-- The algorithm-selection block of `write_geo` (lines 577-584): the
DelQuad override is guarded by `len(self.bl_setting_list) and
self.dimension == 3`, and Algorithm3D is always written from the resolved
3D code. -/
def meshAlgorithmStmts (blCount : ℕ) (dimension algorithm2D algorithm3D : String) :
    List GeoStmt :=
  [GeoStmt.comment "mesh algorithm, only a few algorithms are usable with 3D boundary layer generation",
   GeoStmt.comment "2D mesh algorithm (1=MeshAdapt, 2=Automatic, 5=Delaunay, 6=Frontal, 7=BAMG, 8=DelQuad)"] ++
  (if blCount ≠ 0 ∧ pyEqStrInt dimension 3 then [GeoStmt.raw "Mesh.Algorithm = DelQuad;"]
   else [GeoStmt.raw ("Mesh.Algorithm = " ++ algorithm2D ++ ";")]) ++
  [GeoStmt.comment "3D mesh algorithm (1=Delaunay, 2=New Delaunay, 4=Frontal, 5=Frontal Delaunay, 6=Frontal Hex, 7=MMG3D, 9=R-tree)",
   GeoStmt.raw ("Mesh.Algorithm3D = " ++ algorithm3D ++ ";")]

/-- The static output-format table of the class (lines 40-41). -/
def supportedMeshOutputFormats : List (String × ℕ) :=
  [("Gmsh MSH", 1), ("I-Deas universal", 2), ("Automatic", 10), ("STL surface", 27),
   ("INRIA medit", 30), ("CGNS", 32), ("Salome mesh", 33), ("Abaqus INP", 39),
   ("Ploy surface", 42)]

/-- The whole of `write_geo` (lines 514-613) as the list of statements it
writes, in order.  `eleNodeMap` supplies the vertex indices that the
collaborator `FemMeshTools.get_vertexes_by_element` resolved for each
region element; `scalingMM` stands for `scaling and unit_shema == 0`. -/
def writeGeo (t : GmshTools) (m : MeshObj) (analysis : Bool)
    (groups : List MeshGroup) (eleLengthMap : List (String × ℚ))
    (eleNodeMap : List (String × List ℕ)) (bl : BLState)
    (geomFile meshFile gmshBin : String) (scalingMM : Bool) : List GeoStmt :=
  [GeoStmt.comment "geo file for meshing with GMSH meshing software created by FreeCAD",
   GeoStmt.comment "open brep geometry",
   GeoStmt.raw ("Merge \"" ++ geomFile ++ "\";")] ++
  (if scalingMM then
    [GeoStmt.comment "length scale from current FreeCAD length unit to MKS unit (meter)",
     GeoStmt.raw "Mesh.ScalingFactor=0.001;"]
   else []) ++
  (if eleLengthMap ≠ [] then
    GeoStmt.comment "Characteristic Length according CharacteristicLengthMap" ::
      (eleLengthMap.map fun p =>
        [GeoStmt.comment p.1,
         GeoStmt.raw ("Characteristic Length \x7b " ++
           joinComma ((((eleNodeMap.lookup p.1).getD []).map fun n => toString (n + 1))) ++
           " \x7d = " ++ toString p.2 ++ ";")]).flatten
   else []) ++
  writeGroup t.dimension analysis m.OutputFormat groups ++
  writeBoundaryLayer bl ++
  [GeoStmt.comment "Characteristic Length",
   GeoStmt.comment "min, max Characteristic Length",
   GeoStmt.raw ("Mesh.CharacteristicLengthMax = " ++ toString t.clmax ++ ";")] ++
  (if bl.settings.length ≠ 0 then [GeoStmt.raw "Mesh.CharacteristicLengthMin = 0;"]
   else [GeoStmt.raw ("Mesh.CharacteristicLengthMin = " ++ toString t.clmin ++ ";")]) ++
  (if m.RecombineAll then
    [GeoStmt.comment "other mesh options", GeoStmt.raw "Mesh.RecombineAll = 1;"]
   else []) ++
  [GeoStmt.comment "optimize the mesh",
   GeoStmt.raw (if m.OptimizeStd then "Mesh.Optimize = 1;" else "Mesh.Optimize = 0;"),
   GeoStmt.raw (if m.OptimizeNetgen then "Mesh.OptimizeNetgen = 1;" else "Mesh.OptimizeNetgen = 0;"),
   GeoStmt.raw (if m.HighOrderOptimize then "Mesh.HighOrderOptimize = 1;" else "Mesh.HighOrderOptimize = 0;"),
   GeoStmt.comment "mesh order",
   GeoStmt.raw ("Mesh.ElementOrder = " ++ t.order ++ ";")] ++
  meshAlgorithmStmts bl.settings.length t.dimension t.algorithm2D t.algorithm3D ++
  [GeoStmt.comment "meshing"] ++
  (if m.CoherenceMesh then
    [GeoStmt.raw ("Geometry.Tolerance = " ++ toString t.geotol ++ ";"),
     GeoStmt.raw ("Mesh  " ++ t.dimension ++ ";"),
     GeoStmt.raw "Coherence Mesh;"]
   else [GeoStmt.raw ("Mesh  " ++ t.dimension ++ ";")]) ++
  [GeoStmt.comment "output format 1=msh, 2=unv, 10=automatic, 27=stl, 32=cgns, 33=med, 39=inp, 40=ply2",
   GeoStmt.raw ("Mesh.Format = " ++
     toString ((supportedMeshOutputFormats.lookup m.OutputFormat).getD 0) ++ ";"),
   GeoStmt.raw ("Save \"" ++ meshFile ++ "\";"),
   GeoStmt.comment "GMSH documentation:",
   GeoStmt.comment "http://gmsh.info/doc/texinfo/gmsh.html#Mesh",
   GeoStmt.raw ("// " ++ gmshBin ++ " - shape2mesh.geo"),
   GeoStmt.raw ("// " ++ gmshBin ++ " shape2mesh.geo")]

/-- Outcome of the subprocess invocation attempted at lines 620-621: either
`Popen` raised (the binary could not be started) or the process ran to
completion with an exit status and its two captured streams. -/
inductive SpawnOutcome where
  | failToStart
  | finished (exitCode : Int) (stdout stderr : String)
deriving DecidableEq, Repr

/-- The error handling of `run_gmsh_with_geo` (lines 615-628): returns
`(self.error, error)` where `error` is the value the method returns.  Only
a failure to start sets `self.error`; when the process runs, the exit
status is never examined and `self.error` stays False whatever the status,
while the returned `error` is the captured stderr text. -/
def runGmshWithGeo (o : SpawnOutcome) : Bool × String :=
  match o with
  | SpawnOutcome.failToStart => (true, "Error executing gmsh")
  | SpawnOutcome.finished _ _ stderr => (false, stderr)

/-- The loading decision of `read_and_set_new_mesh` (lines 630-638): with
`self.error` False the artifact read by `Fem.read` replaces
`self.mesh_obj.FemMesh`; otherwise the prior mesh contents are kept.  Mesh
contents are abstracted to a numeric identity. -/
def readAndSetNewMesh (error : Bool) (priorMesh : Option ℕ) (artifact : ℕ) :
    Option ℕ :=
  if !error then some artifact else priorMesh

/-- Result of one `create_mesh` run (lines 151-167): the resolved dimension,
whether dimension resolution printed an error, the emitted script and
whether the external process was invoked.  The source method runs every
stage unconditionally, so a script is always written and the process always
spawned, whatever `get_dimension` reported. -/
structure RunOutcome where
  dimension : String
  dimensionError : Bool
  script : List GeoStmt
  spawned : Bool
deriving DecidableEq, Repr

/-- The pipeline of `create_mesh` (lines 151-167): resolve the dimension,
collect region and boundary-layer data, write the geo script, then run the
mesher.  There is no branch between the stages. -/
def createMesh (m : MeshObj) (shapeType : String) (analysis : Bool)
    (groups : List MeshGroup) (regions : List MeshRegion)
    (blObjs : List MeshBoundaryLayer) (eleNodeMap : List (String × List ℕ))
    (geomFile meshFile gmshBin : String) : RunOutcome :=
  let t := initTools m
  let d := getDimension t.dimension shapeType
  let t2 := { t with dimension := d.1 }
  let rd := getRegionData regions
  let bl := getBoundaryLayerData t2.clmax t2.dimension blObjs
  { dimension := d.1
    dimensionError := d.2
    script := writeGeo t2 m analysis groups rd.1 eleNodeMap bl geomFile meshFile
      gmshBin false
    spawned := true }

/-- The try/finally discipline of `export_mesh` (lines 122-149): the current
`OutputFormat` is saved, overwritten with the requested format, the body
(all pipeline stages, any of which may raise) runs on the overwritten
state, and the `finally` block restores the saved format whether the body
returned or raised.  The body is an arbitrary state transformer returning
the possibly mutated mesh object together with either the produced file
name or the propagated exception. -/
def exportMesh (body : MeshObj → MeshObj × Except String (Option String))
    (outputFormat : String) (m : MeshObj) :
    MeshObj × Except String (Option String) :=
  let saved := m.OutputFormat
  let r := body { m with OutputFormat := outputFormat }
  ({ r.1 with OutputFormat := saved }, r.2)

/-- A group that produces a domain declaration consistent with the resolved
dimensionality, exactly as counted by the `domains` counter of
`write_group`: a Volume (Solid-referencing) group when the dimension is
'3', a Surface (Face-referencing) group when the dimension is '2'
(dispatch on the first reference mirrors the `elif` chain of
lines 460-474). -/
def IsDomainGroup (dimension : String) (g : MeshGroup) : Prop :=
  (pyStartsWith (g.2.headD "") "Solid" = true ∧ dimension = "3")
  ∨ (pyStartsWith (g.2.headD "") "Solid" = false
      ∧ pyStartsWith (g.2.headD "") "Face" = true ∧ dimension = "2")

instance (dimension : String) (g : MeshGroup) : Decidable (IsDomainGroup dimension g) := by
  unfold IsDomainGroup; infer_instance

/-- The synthetic Interior declaration appropriate to a dimensionality:
`Physical Volume("Interior") = {1};` for '3', `Physical
Surface("Interior") = {1};` for '2'. -/
def intrStmt (dimension : String) : GeoStmt :=
  if dimension = "3" then GeoStmt.physical "Volume" "Interior" "1"
  else GeoStmt.physical "Surface" "Interior" "1"

/-- Invariant maintained by `get_boundary_layer_data`: the global
`bl_boundary_list` holds no duplicates, every stored setting's boundary
elements are recorded in it, and the settings claim pairwise disjoint
element sets. -/
def BLInv (st : BLState) : Prop :=
  st.boundary.Nodup
  ∧ (∀ s ∈ st.settings, ∀ e ∈ blElems s, e ∈ st.boundary)
  ∧ st.settings.Pairwise (fun a b => ∀ e ∈ blElems a, e ∉ blElems b)

/-- A concrete configuration snapshot used to evaluate the pipeline at
concrete inputs: all lengths zero (so the sentinels apply), first-order
elements, dimension derived from the shape, automatic algorithms, native
output format, all feature flags off. -/
def sampleMeshObj : MeshObj :=
  { CharacteristicLengthMax := 0
    CharacteristicLengthMin := 0
    GeometryTolerance := 0
    ElementOrder := "1st"
    ElementDimension := "From Shape"
    Algorithm2D := "Automatic"
    OutputFormat := "Gmsh MSH"
    RecombineAll := false
    OptimizeStd := false
    OptimizeNetgen := false
    HighOrderOptimize := false
    CoherenceMesh := false }

/-- The list sum of line 364 equals the factored geometric sum. -/
theorem blThickness_factor (h r : ℚ) (n : ℕ) :
    blThickness h r n = h * ∑ i ∈ Finset.range n, r ^ i := by
  induction n with
  | zero => simp [blThickness]
  | succ k ih =>
      rw [blThickness, List.range_succ, List.map_append, List.sum_append,
        Finset.sum_range_succ]
      simp only [List.map_cons, List.map_nil, List.sum_cons, List.sum_nil]
      rw [show (((List.range k).map fun i => h * r ^ i)).sum = blThickness h r k from rfl,
        ih]
      ring

/-- C1: for every boundary-layer spec with positive minimum wall thickness
`h`, growth ratio `r` and layer count `n`, the thickness stored in the
derived setting equals `h * Σ_{i=0}^{n-1} r^i`, and for `r = 1` it equals
`h * n`. -/
theorem setting_thickness_eq_geom_sum (h r : ℚ) (n : ℕ) (clmax : ℚ)
    (dimension : String) (belem_list : List String) (hpos : 0 < h) :
    (mkSetting h r n clmax dimension belem_list).thickness
        = h * ∑ i ∈ Finset.range n, r ^ i
    ∧ (mkSetting h 1 n clmax dimension belem_list).thickness = h * n := by
  refine ⟨blThickness_factor h r n, ?_⟩
  rw [show (mkSetting h 1 n clmax dimension belem_list).thickness = blThickness h 1 n
    from rfl, blThickness_factor h 1 n]
  simp

/-- Witness for C1 at `h = 2`, `r = 3`, `n = 2`. -/
theorem setting_thickness_eq_geom_sum_witness :
    (mkSetting 2 3 2 0 "2" []).thickness = 2 * ∑ i ∈ Finset.range 2, (3:ℚ) ^ i
    ∧ (mkSetting 2 1 2 0 "2" []).thickness = 2 * (2 : ℕ) :=
  setting_thickness_eq_geom_sum 2 3 2 0 "2" [] (by norm_num)

/-- C2: with a positive computed thickness `t`, the derived hfar equals
clmax exactly when `0.8*t < clmax < 1.6*t` with strict inequalities, and
the two boundary cases `clmax = 0.8*t` and `clmax = 1.6*t` resolve to the
else branch, yielding `t`. -/
theorem hfar_selection (t clmax : ℚ) (ht : 0 < t) :
    (blHfar clmax t = clmax ↔ t * (8 / 10) < clmax ∧ clmax < t * (16 / 10))
    ∧ blHfar (t * (8 / 10)) t = t ∧ blHfar (t * (16 / 10)) t = t := by
  refine ⟨?_, ?_, ?_⟩
  · unfold blHfar
    split_ifs with hc
    · exact ⟨fun _ => hc, fun _ => rfl⟩
    · constructor
      · intro he
        exfalso
        apply hc
        rw [← he]
        constructor <;> nlinarith
      · intro hcond
        exact absurd hcond hc
  · unfold blHfar
    rw [if_neg]
    rintro ⟨h1, -⟩
    exact lt_irrefl _ h1
  · unfold blHfar
    rw [if_neg]
    rintro ⟨-, h2⟩
    exact lt_irrefl _ h2

/-- Witness for C2 at `t = 1`, `clmax = 1`. -/
theorem hfar_selection_witness :
    (blHfar 1 1 = 1 ↔ (1:ℚ) * (8 / 10) < 1 ∧ (1:ℚ) < 1 * (16 / 10))
    ∧ blHfar ((1:ℚ) * (8 / 10)) 1 = 1 ∧ blHfar ((1:ℚ) * (16 / 10)) 1 = 1 :=
  hfar_selection 1 1 (by norm_num)

/-- C3: with one boundary-layer setting present and the resolved dimension
'3', the emitted Mesh.Algorithm directive still carries the configured 2D
code (here '2') and the DelQuad override is not emitted, because the guard
`self.dimension == 3` compares the string '3' with the integer 3 and is
always False in Python. -/
theorem meshAlgorithm_delquad_override_dead :
    GeoStmt.raw "Mesh.Algorithm = 2;" ∈ meshAlgorithmStmts 1 "3" "2" "1"
    ∧ GeoStmt.raw "Mesh.Algorithm = DelQuad;" ∉ meshAlgorithmStmts 1 "3" "2" "1" := by
  decide

/-- C6: when the mesher process starts but exits with a non-zero status,
`self.error` stays False (the exit status is never examined), so
`read_and_set_new_mesh` replaces the prior mesh with the artifact; only a
failure to start sets the flag and preserves the prior mesh. -/
theorem nonzero_exit_still_loads_mesh :
    (runGmshWithGeo (SpawnOutcome.finished 1 "" "error text")).1 = false
    ∧ readAndSetNewMesh
        (runGmshWithGeo (SpawnOutcome.finished 1 "" "error text")).1 (some 7) 42 = some 42
    ∧ (runGmshWithGeo SpawnOutcome.failToStart).1 = true
    ∧ readAndSetNewMesh (runGmshWithGeo SpawnOutcome.failToStart).1 (some 7) 42 = some 7 := by
  decide

/-- C8 counterexample: for the unrecognized element-order string
'NoSuchOrder' the resolver reports the error but keeps the raw string as
the resolved order, which is neither of the valid codes '1' and '2'; for
an unrecognized algorithm string the fallback code is used but no error is
reported. -/
theorem resolveOrder_keeps_raw_string :
    resolveOrder "NoSuchOrder" = ("NoSuchOrder", true)
    ∧ (resolveOrder "NoSuchOrder").1 ≠ "1"
    ∧ (resolveOrder "NoSuchOrder").1 ≠ "2"
    ∧ resolveAlgorithm2D "NoSuchAlgo" = ("2", false)
    ∧ resolveAlgorithm3D "NoSuchAlgo" = ("1", false) := by
  decide

/-- C8 amended: for every unrecognized algorithm enum string resolution
silently continues with the Automatic-equivalent fallback codes ('2' for
2D, '1' for 3D, no error reported); for an unrecognized element-order
string an error is reported and the raw string is retained as the order,
so the resolved order need not be a valid code.  Resolution never aborts. -/
theorem resolver_fallbacks (s : String)
    (h2 : s ∉ ["Automatic", "MeshAdapt", "Delaunay", "Frontal", "BAMG", "DelQuad"])
    (h3 : s ∉ ["Automatic", "Delaunay", "New Delaunay", "Frontal", "Frontal Delaunay",
        "Frontal Hex", "MMG3D", "R-tree"])
    (ho : s ∉ ["1st", "2nd"]) :
    resolveAlgorithm2D s = ("2", false)
    ∧ resolveAlgorithm3D s = ("1", false)
    ∧ resolveOrder s = (s, true) := by
  simp only [List.mem_cons, List.not_mem_nil, or_false, not_or] at h2 h3 ho
  refine ⟨?_, ?_, ?_⟩
  · simp [resolveAlgorithm2D, h2.1, h2.2.1, h2.2.2.1, h2.2.2.2.1, h2.2.2.2.2.1,
      h2.2.2.2.2.2]
  · simp [resolveAlgorithm3D, h3.1, h3.2.1, h3.2.2.1, h3.2.2.2.1, h3.2.2.2.2.1,
      h3.2.2.2.2.2.1, h3.2.2.2.2.2.2.1, h3.2.2.2.2.2.2.2]
  · simp [resolveOrder, ho.1, ho.2]

/-- Witness for the amended C8 at the string 'NoSuchEnum'. -/
theorem resolver_fallbacks_witness :
    resolveAlgorithm2D "NoSuchEnum" = ("2", false)
    ∧ resolveAlgorithm3D "NoSuchEnum" = ("1", false)
    ∧ resolveOrder "NoSuchEnum" = ("NoSuchEnum", true) :=
  resolver_fallbacks "NoSuchEnum" (by decide) (by decide) (by decide)

/-- C9: `export_mesh` restores the mesh object's OutputFormat to its
pre-call value through its `finally` block, for every requested format and
every behaviour of the pipeline stages inside the `try` (returning
normally or raising at any point, having mutated the object's state in any
way). -/
theorem exportMesh_restores_outputFormat
    (body : MeshObj → MeshObj × Except String (Option String))
    (outputFormat : String) (m : MeshObj) :
    (exportMesh body outputFormat m).1.OutputFormat = m.OutputFormat := rfl

/-- Witness for C9: a body that overwrites the format and raises mid-run
still leaves the original format restored. -/
theorem exportMesh_restores_outputFormat_witness :
    (exportMesh
      (fun o => ({ o with OutputFormat := "STL surface" }, Except.error "boom"))
      "I-Deas universal" sampleMeshObj).1.OutputFormat = "Gmsh MSH" :=
  exportMesh_restores_outputFormat
    (fun o => ({ o with OutputFormat := "STL surface" }, Except.error "boom"))
    "I-Deas universal" sampleMeshObj

/-- C7 counterexample: meshing a Vertex shape with dimension 'From Shape'
is not fatal for the run.  `get_dimension` prints its error and sets the
dimension to '0', but `create_mesh` continues through every stage: a
non-empty script is emitted (containing the command `Mesh  0;`) and the
external process is spawned. -/
theorem vertex_run_not_fatal :
    (createMesh sampleMeshObj "Vertex" false [] [] [] [] "g.brep" "m.msh" "gmsh").dimensionError
        = true
    ∧ (createMesh sampleMeshObj "Vertex" false [] [] [] [] "g.brep" "m.msh" "gmsh").script ≠ []
    ∧ (createMesh sampleMeshObj "Vertex" false [] [] [] [] "g.brep" "m.msh" "gmsh").spawned
        = true := by
  refine ⟨rfl, ?_, rfl⟩
  decide

/-- C7 amended: a Vertex shape, and any shape type outside the recognized
set, makes dimension resolution report an error and yield dimension '0',
but the run is not stopped: the pipeline still emits a script (whose mesh
command is `Mesh  0;`) and spawns the mesher process. -/
theorem dimension_error_run_continues (shty : String)
    (hs : shty ∉ ["Solid", "CompSolid", "Face", "Shell", "Edge", "Wire", "Vertex",
        "Compound"]) :
    getDimension "From Shape" "Vertex" = ("0", true)
    ∧ getDimension "From Shape" shty = ("0", true)
    ∧ GeoStmt.raw "Mesh  0;"
        ∈ (createMesh sampleMeshObj "Vertex" false [] [] [] [] "g.brep" "m.msh" "gmsh").script
    ∧ (createMesh sampleMeshObj "Vertex" false [] [] [] [] "g.brep" "m.msh" "gmsh").spawned
        = true := by
  simp only [List.mem_cons, List.not_mem_nil, or_false, not_or] at hs
  refine ⟨rfl, ?_, by decide, rfl⟩
  simp [getDimension, hs.1, hs.2.1, hs.2.2.1, hs.2.2.2.1, hs.2.2.2.2.1,
    hs.2.2.2.2.2.1, hs.2.2.2.2.2.2.1, hs.2.2.2.2.2.2.2]

/-- Witness for the amended C7 at the unrecognized shape type 'Blob'. -/
theorem dimension_error_run_continues_witness :
    getDimension "From Shape" "Vertex" = ("0", true)
    ∧ getDimension "From Shape" "Blob" = ("0", true)
    ∧ GeoStmt.raw "Mesh  0;"
        ∈ (createMesh sampleMeshObj "Vertex" false [] [] [] [] "g.brep" "m.msh" "gmsh").script
    ∧ (createMesh sampleMeshObj "Vertex" false [] [] [] [] "g.brep" "m.msh" "gmsh").spawned
        = true :=
  dimension_error_run_continues "Blob" (by decide)

/-- C10: the resolved 3D algorithm code is computed from the Algorithm2D
configuration field (there is no separate 3D field in the consumed
configuration): 'Frontal' yields code '4', any string outside the 3D name
table yields the fallback '1', and the resolved code is what the script
emitter writes after `Mesh.Algorithm3D = `. -/
theorem algorithm3D_from_algorithm2D (m : MeshObj) (s : String)
    (hs : s ∉ ["Automatic", "Delaunay", "New Delaunay", "Frontal", "Frontal Delaunay",
        "Frontal Hex", "MMG3D", "R-tree"]) :
    (initTools m).algorithm3D = (resolveAlgorithm3D m.Algorithm2D).1
    ∧ (resolveAlgorithm3D "Frontal").1 = "4"
    ∧ (resolveAlgorithm3D s).1 = "1"
    ∧ ∀ (blCount : ℕ) (dimension algorithm2D algorithm3D : String),
        GeoStmt.raw ("Mesh.Algorithm3D = " ++ algorithm3D ++ ";")
          ∈ meshAlgorithmStmts blCount dimension algorithm2D algorithm3D := by
  simp only [List.mem_cons, List.not_mem_nil, or_false, not_or] at hs
  refine ⟨rfl, rfl, ?_, ?_⟩
  · simp [resolveAlgorithm3D, hs.1, hs.2.1, hs.2.2.1, hs.2.2.2.1, hs.2.2.2.2.1,
      hs.2.2.2.2.2.1, hs.2.2.2.2.2.2.1, hs.2.2.2.2.2.2.2]
  · intro blCount dimension algorithm2D algorithm3D
    simp [meshAlgorithmStmts]

/-- Witness for C10 at the sample configuration ('Automatic' 2D algorithm)
and the unrecognized string 'Blob'. -/
theorem algorithm3D_from_algorithm2D_witness :
    (initTools sampleMeshObj).algorithm3D = (resolveAlgorithm3D sampleMeshObj.Algorithm2D).1
    ∧ (resolveAlgorithm3D "Frontal").1 = "4"
    ∧ (resolveAlgorithm3D "Blob").1 = "1"
    ∧ ∀ (blCount : ℕ) (dimension algorithm2D algorithm3D : String),
        GeoStmt.raw ("Mesh.Algorithm3D = " ++ algorithm3D ++ ";")
          ∈ meshAlgorithmStmts blCount dimension algorithm2D algorithm3D :=
  algorithm3D_from_algorithm2D sampleMeshObj "Blob" (by decide)

/-- One region claim preserves distinctness of the claimed element keys. -/
theorem addRegionClaim_keys_nodup (st : List (String × ℚ) × List String) (e : String)
    (l : ℚ) (h : (st.1.map Prod.fst).Nodup) :
    ((addRegionClaim st e l).1.map Prod.fst).Nodup := by
  unfold addRegionClaim
  split_ifs with hmem
  · exact h
  · simp only [List.map_append, List.map_cons, List.map_nil]
    simp [List.nodup_append, h, hmem]

/-- The claim fold of one region preserves distinctness of the keys. -/
theorem foldRegionRefs_keys_nodup (refs : List String) (l : ℚ)
    (st : List (String × ℚ) × List String) (h : (st.1.map Prod.fst).Nodup) :
    (((refs.foldl (fun s e => addRegionClaim s e l) st)).1.map Prod.fst).Nodup := by
  induction refs generalizing st with
  | nil => exact h
  | cons r rest ih => exact ih _ (addRegionClaim_keys_nodup st r l h)

/-- One region object preserves distinctness of the claimed element keys. -/
theorem regionStep_keys_nodup (st : List (String × ℚ) × List String) (mr : MeshRegion)
    (h : (st.1.map Prod.fst).Nodup) : ((regionStep st mr).1.map Prod.fst).Nodup := by
  unfold regionStep
  split_ifs
  · exact foldRegionRefs_keys_nodup _ _ _ h
  · exact h
  · exact h

/-- The element-length map built by `get_region_data` never holds two
entries for one element. -/
theorem getRegionData_keys_nodup (regions : List MeshRegion) :
    ((getRegionData regions).1.map Prod.fst).Nodup := by
  unfold getRegionData
  have aux : ∀ (l : List MeshRegion) (st : List (String × ℚ) × List String),
      (st.1.map Prod.fst).Nodup → ((l.foldl regionStep st).1.map Prod.fst).Nodup := by
    intro l
    induction l with
    | nil => exact fun st h => h
    | cons mr rest ih => exact fun st h => ih _ (regionStep_keys_nodup st mr h)
  exact aux regions ([], []) (by simp)

/-- The claim fold of one boundary-layer object appends one block of fresh
elements to both the per-object list and the global boundary list: the
fresh block has no duplicates and is disjoint from the boundary list the
fold started from. -/
theorem addBLClaim_fold (refs : List String) :
    ∀ (belem bnd diags : List String), ∃ δ ds,
      refs.foldl addBLClaim (belem, bnd, diags) = (belem ++ δ, bnd ++ δ, diags ++ ds)
      ∧ δ.Nodup ∧ ∀ e ∈ δ, e ∉ bnd := by
  induction refs with
  | nil =>
      intro belem bnd diags
      exact ⟨[], [], by simp, List.nodup_nil, by simp⟩
  | cons r rest ih =>
      intro belem bnd diags
      rw [List.foldl_cons]
      by_cases hr : r ∈ bnd
      · have hstep : addBLClaim (belem, bnd, diags) r
            = (belem, bnd, diags ++ [dupBLDiag r]) := by
          simp [addBLClaim, hr]
        obtain ⟨δ, ds, heq, hnd, hdisj⟩ := ih belem bnd (diags ++ [dupBLDiag r])
        exact ⟨δ, dupBLDiag r :: ds, by rw [hstep, heq]; simp, hnd, hdisj⟩
      · have hstep : addBLClaim (belem, bnd, diags) r
            = (belem ++ [r], bnd ++ [r], diags) := by
          simp [addBLClaim, hr]
        obtain ⟨δ, ds, heq, hnd, hdisj⟩ := ih (belem ++ [r]) (bnd ++ [r]) diags
        refine ⟨r :: δ, ds, ?_, ?_, ?_⟩
        · rw [hstep, heq]; simp
        · exact List.nodup_cons.mpr ⟨fun hrδ => (hdisj r hrδ) (by simp), hnd⟩
        · intro e he
          rcases List.mem_cons.mp he with h1 | h1
          · subst h1; exact hr
          · exact fun hbnd => (hdisj e h1) (List.mem_append_left _ hbnd)

/-- Every boundary element stored in a derived setting comes from the
`belem_list` the setting was built from. -/
theorem blElems_mkSetting (h r : ℚ) (n : ℕ) (clmax : ℚ) (dimension : String)
    (b : List String) (e : String)
    (he : e ∈ blElems (mkSetting h r n clmax dimension b)) : e ∈ b := by
  unfold blElems mkSetting at he
  split_ifs at he <;> simp_all

/-- One boundary-layer object preserves the claim invariant. -/
theorem processBLObj_inv (clmax : ℚ) (dimension : String) (st : BLState)
    (mr : MeshBoundaryLayer) (h : BLInv st) :
    BLInv (processBLObj clmax dimension st mr) := by
  obtain ⟨hnd, hmem, hpw⟩ := h
  unfold processBLObj
  split_ifs with h1 h2
  · obtain ⟨δ, ds, heq, hδnd, hδdisj⟩ := addBLClaim_fold mr.References [] st.boundary st.diags
    simp only [heq, List.nil_append]
    refine ⟨?_, ?_, ?_⟩
    · exact List.nodup_append.mpr ⟨hnd, hδnd, fun a ha hδa => (hδdisj a hδa) ha⟩
    · intro s hs e he
      rcases List.mem_append.mp hs with hold | hnew
      · exact List.mem_append_left _ (hmem s hold e he)
      · rcases List.mem_singleton.mp hnew with rfl
        exact List.mem_append_right _ (blElems_mkSetting _ _ _ _ _ _ _ he)
    · refine List.pairwise_append.mpr ⟨hpw, List.pairwise_singleton _ _, ?_⟩
      intro a ha b hb e hea heb
      rcases List.mem_singleton.mp hb with rfl
      exact (hδdisj e (blElems_mkSetting _ _ _ _ _ _ _ heb)) (hmem a ha e hea)
  · exact ⟨hnd, hmem, hpw⟩
  · exact ⟨hnd, hmem, hpw⟩

/-- The whole of `get_boundary_layer_data` establishes the claim
invariant. -/
theorem getBoundaryLayerData_inv (clmax : ℚ) (dimension : String)
    (objs : List MeshBoundaryLayer) :
    BLInv (getBoundaryLayerData clmax dimension objs) := by
  unfold getBoundaryLayerData
  have aux : ∀ (l : List MeshBoundaryLayer) (st : BLState), BLInv st →
      BLInv (l.foldl (processBLObj clmax dimension) st) := by
    intro l
    induction l with
    | nil => exact fun st h => h
    | cons mr rest ih => exact fun st h => ih _ (processBLObj_inv clmax dimension st mr h)
  exact aux objs ⟨[], [], []⟩ ⟨List.nodup_nil, by simp, List.Pairwise.nil⟩

/-- C4: every element reference is claimed by at most one region (the
length map has pairwise distinct keys) and belongs to at most one
boundary-layer object (the global boundary list has no duplicates and the
stored settings claim pairwise disjoint element sets); a second claim of
an already-claimed reference leaves the state intact apart from one
appended diagnostic, and both claim steps are total functions (no
exception is raised). -/
theorem element_claims_first_wins (regions : List MeshRegion)
    (objs : List MeshBoundaryLayer) (clmax : ℚ) (dimension : String) :
    ((getRegionData regions).1.map Prod.fst).Nodup
    ∧ (getBoundaryLayerData clmax dimension objs).boundary.Nodup
    ∧ (getBoundaryLayerData clmax dimension objs).settings.Pairwise
        (fun a b => ∀ e ∈ blElems a, e ∉ blElems b)
    ∧ (∀ (st : List (String × ℚ) × List String) (e : String) (l : ℚ),
        e ∈ st.1.map Prod.fst →
        addRegionClaim st e l = (st.1, st.2 ++ [dupRegionDiag e]))
    ∧ (∀ (st : List String × List String × List String) (e : String),
        e ∈ st.2.1 →
        addBLClaim st e = (st.1, st.2.1, st.2.2 ++ [dupBLDiag e])) := by
  have hinv := getBoundaryLayerData_inv clmax dimension objs
  refine ⟨getRegionData_keys_nodup regions, hinv.1, hinv.2.2, ?_, ?_⟩
  · intro st e l hmem
    simp [addRegionClaim, hmem]
  · intro st e hmem
    simp [addBLClaim, hmem]

/-- Witness for C4: a duplicated region claim and a duplicated boundary
claim, each leaving the first claim intact and appending one diagnostic. -/
theorem element_claims_first_wins_witness :
    addRegionClaim ([("Face1", 2)], []) "Face1" 5 = ([("Face1", 2)], [dupRegionDiag "Face1"])
    ∧ addBLClaim (["Face2"], ["Face1", "Face2"], []) "Face2"
        = (["Face2"], ["Face1", "Face2"], [dupBLDiag "Face2"]) :=
  ⟨(element_claims_first_wins [] [] 0 "3").2.2.2.1 ([("Face1", 2)], []) "Face1" 5
      (by decide),
   (element_claims_first_wins [] [] 0 "3").2.2.2.2 (["Face2"], ["Face1", "Face2"], [])
      "Face2" (by decide)⟩

/-- A group that is no domain group neither contributes an Interior-shaped
declaration nor bumps the `domains` counter. -/
theorem writeGroupOne_nondomain (dimension : String) (st : List GeoStmt × ℕ × ℕ)
    (g : MeshGroup) (hdim : dimension = "3" ∨ dimension = "2")
    (hg : ¬ IsDomainGroup dimension g) :
    (writeGroupOne dimension st g).1.count (intrStmt dimension) = st.1.count (intrStmt dimension)
    ∧ (writeGroupOne dimension st g).2.2 = st.2.2 := by
  rcases hdim with h | h <;> subst h
  · have hsolid : pyStartsWith (g.2.headD "") "Solid" = false := by
      rcases Bool.eq_false_or_eq_true (pyStartsWith (g.2.headD "") "Solid") with hc | hc
      · exact absurd (Or.inl ⟨hc, rfl⟩) hg
      · exact hc
    unfold writeGroupOne
    simp only [hsolid, Bool.false_eq_true, if_false]
    split_ifs <;> simp_all [List.count_append, List.count_cons, intrStmt]
  · have hface : pyStartsWith (g.2.headD "") "Solid" = false →
        pyStartsWith (g.2.headD "") "Face" = false := by
      intro hs
      rcases Bool.eq_false_or_eq_true (pyStartsWith (g.2.headD "") "Face") with hc | hc
      · exact absurd (Or.inr ⟨hs, hc, rfl⟩) hg
      · exact hc
    unfold writeGroupOne
    by_cases hs : pyStartsWith (g.2.headD "") "Solid"
    · simp only [hs, if_true]
      split_ifs <;> simp_all [List.count_append, List.count_cons, intrStmt]
    · have hf := hface (by simpa using hs)
      simp only [hs, hf, Bool.false_eq_true, if_false]
      split_ifs <;> simp_all [List.count_append, List.count_cons, intrStmt]

/-- One group never decreases the `domains` counter. -/
theorem writeGroupOne_domains_mono (dimension : String) (st : List GeoStmt × ℕ × ℕ)
    (g : MeshGroup) : st.2.2 ≤ (writeGroupOne dimension st g).2.2 := by
  simp only [writeGroupOne]
  generalize joinComma (List.map (pyLstrip "Solid") g.2) = eS
  generalize joinComma (List.map (pyLstrip "Face") g.2) = eF
  generalize joinComma (List.map (pyLstrip "Edge") g.2) = eE
  split_ifs <;> simp

/-- A domain group bumps the `domains` counter by exactly one. -/
theorem writeGroupOne_domain_succ (dimension : String) (st : List GeoStmt × ℕ × ℕ)
    (g : MeshGroup) (hg : IsDomainGroup dimension g) :
    (writeGroupOne dimension st g).2.2 = st.2.2 + 1 := by
  simp only [writeGroupOne]
  generalize joinComma (List.map (pyLstrip "Solid") g.2) = eS
  generalize joinComma (List.map (pyLstrip "Face") g.2) = eF
  generalize joinComma (List.map (pyLstrip "Edge") g.2) = eE
  rcases hg with ⟨hs, hd⟩ | ⟨hs, hf, hd⟩ <;> subst hd <;>
    simp only [hs, Bool.false_eq_true, if_false, if_true] <;> split_ifs <;> simp_all

/-- With no domain group, the group fold neither writes an Interior-shaped
declaration nor moves the `domains` counter. -/
theorem foldGroups_nondomain (dimension : String) (hdim : dimension = "3" ∨ dimension = "2") :
    ∀ (groups : List MeshGroup) (st : List GeoStmt × ℕ × ℕ),
      (∀ g ∈ groups, ¬ IsDomainGroup dimension g) →
      (groups.foldl (writeGroupOne dimension) st).1.count (intrStmt dimension)
          = st.1.count (intrStmt dimension)
      ∧ (groups.foldl (writeGroupOne dimension) st).2.2 = st.2.2 := by
  intro groups
  induction groups with
  | nil => exact fun st _ => ⟨rfl, rfl⟩
  | cons g rest ih =>
      intro st hall
      have h1 := writeGroupOne_nondomain dimension st g hdim (hall g (by simp))
      have h2 := ih (writeGroupOne dimension st g) (fun x hx => hall x (by simp [hx]))
      rw [List.foldl_cons]
      exact ⟨h2.1.trans h1.1, h2.2.trans h1.2⟩

/-- The group fold never decreases the `domains` counter. -/
theorem foldGroups_mono (dimension : String) :
    ∀ (groups : List MeshGroup) (st : List GeoStmt × ℕ × ℕ),
      st.2.2 ≤ (groups.foldl (writeGroupOne dimension) st).2.2 := by
  intro groups
  induction groups with
  | nil => exact fun _ => le_refl _
  | cons g rest ih =>
      intro st
      rw [List.foldl_cons]
      exact le_trans (writeGroupOne_domains_mono dimension st g) (ih _)

/-- With at least one domain group, the fold ends with a positive
`domains` counter. -/
theorem foldGroups_domain_pos (dimension : String) :
    ∀ (groups : List MeshGroup) (st : List GeoStmt × ℕ × ℕ),
      (∃ g ∈ groups, IsDomainGroup dimension g) →
      0 < (groups.foldl (writeGroupOne dimension) st).2.2 := by
  intro groups
  induction groups with
  | nil =>
      rintro st ⟨g, hg, -⟩
      simp at hg
  | cons g rest ih =>
      rintro st ⟨g', hg', hd⟩
      rw [List.foldl_cons]
      rcases List.mem_cons.mp hg' with rfl | hmem
      · have h1 := writeGroupOne_domain_succ dimension st g' hd
        have h2 := foldGroups_mono dimension rest (writeGroupOne dimension st g')
        omega
      · exact ih _ ⟨g', hmem, hd⟩

/-- With zero domains the synthetic block holds exactly one Interior
declaration for dimension '3' or '2'. -/
theorem interiorStmts_zero_count (dimension : String)
    (hdim : dimension = "3" ∨ dimension = "2") :
    (interiorStmts dimension 0).count (intrStmt dimension) = 1 := by
  rcases hdim with h | h <;> subst h <;> decide

/-- With a positive domain count the synthetic block is empty. -/
theorem interiorStmts_of_pos (dimension : String) (d : ℕ) (hd : d ≠ 0) :
    interiorStmts dimension d = [] := by
  unfold interiorStmts
  simp [hd]

/-- The UNV tail of `write_group` holds no Interior declaration. -/
theorem saveGroupsStmts_no_intr (dimension : String)
    (hdim : dimension = "3" ∨ dimension = "2") (analysis : Bool) (fmt : String) :
    (saveGroupsStmts analysis fmt).count (intrStmt dimension) = 0 := by
  unfold saveGroupsStmts
  rcases hdim with h | h <;> subst h <;> split_ifs <;>
    simp [intrStmt, List.count_cons]

/-- C5: when no group produces a domain declaration consistent with the
resolved dimensionality (no Volume group for dimension '3', no Surface
group for dimension '2'), the output of `write_group` contains exactly one
synthetic Interior declaration covering entity 1; when at least one such
group exists, the synthetic block contributes nothing. -/
theorem interior_default_domain (dimension : String) (analysis : Bool)
    (outputFormat : String) (groups : List MeshGroup)
    (hdim : dimension = "3" ∨ dimension = "2")
    (hne : ∀ g ∈ groups, g.2 ≠ []) :
    ((∀ g ∈ groups, ¬ IsDomainGroup dimension g) →
      (writeGroup dimension analysis outputFormat groups).count (intrStmt dimension) = 1)
    ∧ ((∃ g ∈ groups, IsDomainGroup dimension g) →
      interiorStmts dimension (groupFold dimension groups).2.2 = []) := by
  constructor
  · intro hall
    unfold writeGroup groupFold
    rw [List.count_append, List.count_append]
    have hfold := foldGroups_nondomain dimension hdim groups
      (if groups ≠ [] then [GeoStmt.comment "group data"] else [], 0, 0) hall
    rw [hfold.1, hfold.2]
    have hinit : (((if groups ≠ [] then [GeoStmt.comment "group data"] else []) : List GeoStmt),
        (0:ℕ), (0:ℕ)).1.count (intrStmt dimension) = 0 := by
      rcases hdim with h | h <;> subst h <;> split_ifs <;>
        simp [intrStmt, List.count_cons]
    rw [hinit, interiorStmts_zero_count dimension hdim,
      saveGroupsStmts_no_intr dimension hdim analysis outputFormat]
  · rintro ⟨g, hg, hd⟩
    apply interiorStmts_of_pos
    have := foldGroups_domain_pos dimension groups
      (if groups ≠ [] then [GeoStmt.comment "group data"] else [], 0, 0) ⟨g, hg, hd⟩
    unfold groupFold
    omega

/-- Witness for C5: a run with only a Face-referencing group at dimension
'3' gets exactly one synthetic Interior volume; a run with a
Solid-referencing group at dimension '3' gets none. -/
theorem interior_default_domain_witness :
    (writeGroup "3" false "Gmsh MSH" [("boundary", ["Face2"])]).count (intrStmt "3") = 1
    ∧ interiorStmts "3" (groupFold "3" [("vol", ["Solid1"])]).2.2 = [] :=
  ⟨(interior_default_domain "3" false "Gmsh MSH" [("boundary", ["Face2"])] (Or.inl rfl)
      (by intro g hg; rcases List.mem_singleton.mp hg with rfl; decide)).1
      (by intro g hg; rcases List.mem_singleton.mp hg with rfl; decide),
   (interior_default_domain "3" false "Gmsh MSH" [("vol", ["Solid1"])] (Or.inl rfl)
      (by intro g hg; rcases List.mem_singleton.mp hg with rfl; decide)).2
      ⟨("vol", ["Solid1"]), by decide, by decide⟩⟩
